import Mathlib

/-!
Shallow embedding of the `ha_users` Home Assistant integration
(`custom_components/ha_users/__init__.py` and `sensor.py`) together with
theorems settling the specification's claims about it.

The integration polls the host's user-account subsystem, maps each account
object to a flat dictionary (`UserCoordinator._async_update_data`), and
mirrors each such record into one sensor entity (`UserSensor`).
-/

namespace HAUsers

/-! ## Python string primitives used by the source -/

/-- Python's `x or y` for a value `x` that is an optional string (`None` or a
string): yields `y` when `x` is `None` or the empty string (both falsy),
otherwise the string itself. -/
def orTruthy (x : Option String) (y : String) : String :=
  match x with
  | none => y
  | some s => if s = "" then y else s

/-- Python's `str.lower()` restricted to the one-to-one ASCII case:
lower-case each character with `Char.toLower`. -/
def lowerStr (s : String) : String :=
  String.mk (s.data.map Char.toLower)

/-- Python's `str.replace(a, b)` for single-character `a` and `b`:
replace every occurrence of the character `a` by `b`. -/
def replaceChar (s : String) (a b : Char) : String :=
  String.mk (s.data.map fun c => if c = a then b else c)

/-- Python's `s[:n]` on a string: the first `n` characters. -/
def pyTake (s : String) (n : Nat) : String :=
  String.mk (s.data.take n)

/-! ## Data model

`Group` and `HostUser` model the account objects returned by the host's
`auth.async_get_users()` API (sensor.py lines 70-92 read exactly these
fields).  `Option` fields model attributes that may be absent on the host
object (`hasattr` checks in the source): `none` means the attribute is
missing. -/

/-- A group object exposed by the host: only its `id` is read (sensor.py line 82). -/
structure Group where
  id : String
deriving DecidableEq

/-- An account object from the host's user-account API, with exactly the
fields `UserCoordinator._async_update_data` reads.  `name` is `none` for a
Python `None` name; `local_only` and `credentials` are `none` when the host
object lacks the attribute (the `hasattr` branches of sensor.py lines 86, 92). -/
structure HostUser where
  id : String
  name : Option String
  is_owner : Bool
  is_active : Bool
  system_generated : Bool
  groups : List Group
  local_only : Option Bool
  credentials : Option (List Unit)
deriving DecidableEq

/-- The flat user dictionary built per account in
`UserCoordinator._async_update_data` (sensor.py lines 76-94).  The keys
`id`, `name`, `is_owner`, `is_active`, `system_generated`, `group_ids` are
always set; `local_only` and `has_credentials` are modelled as `Option`
because `UserSensor._update_from_user` reads them with `dict.get` and a
default (`none` = key absent from the dictionary). -/
structure UserRecord where
  id : String
  name : Option String
  is_owner : Bool
  is_active : Bool
  system_generated : Bool
  group_ids : List String
  local_only : Option Bool
  has_credentials : Option Bool
deriving DecidableEq

/-- The per-account body of `UserCoordinator._async_update_data`
(sensor.py lines 76-94): copy the scalar fields, project the group ids,
default `local_only` to `False` when the attribute is absent, and set
`has_credentials` to `len(user.credentials) > 0` when the attribute is
present and `False` otherwise. -/
def mapUser (u : HostUser) : UserRecord :=
  { id := u.id
    name := u.name
    is_owner := u.is_owner
    is_active := u.is_active
    system_generated := u.system_generated
    group_ids := u.groups.map Group.id
    local_only := some (match u.local_only with
      | some b => b
      | none => false)
    has_credentials := some (match u.credentials with
      | some cs => decide (cs.length > 0)
      | none => false) }

/-- `UserCoordinator._async_update_data` (sensor.py lines 65-97) given the
list of accounts the host API returned: map each to its record. -/
def asyncUpdateData (users : List HostUser) : List UserRecord :=
  users.map mapUser

/-! ## Coordinator state -/

/-- The coordinator state the entities observe: `data` is the cached
snapshot (`none` before the first successful refresh, as in the host
framework), `last_update_success` the host-maintained availability flag. -/
structure UserCoordinator where
  data : Option (List UserRecord)
  last_update_success : Bool
deriving DecidableEq

/-- A refresh outcome: the host API call either returns a list of accounts
or raises an exception (carried here as a message string). -/
abbrev FetchResult := Except String (List HostUser)

/-- Modelled from the spec: the host's `DataUpdateCoordinator.async_refresh`
is host-framework code not present in this repository.  Per the spec
(§4.1, §7, end-to-end scenario 3): on success the mapped record list
replaces the cached snapshot atomically; any exception raised inside the
refresh operation marks the coordinator unavailable for the cycle and the
previously cached snapshot is retained unchanged.  The body of the fetch
(`_async_update_data`) is from sensor.py lines 65-97 via `asyncUpdateData`. -/
def UserCoordinator.refresh (c : UserCoordinator) (fetched : FetchResult) :
    UserCoordinator :=
  match fetched with
  | .ok users => { data := some (asyncUpdateData users), last_update_success := true }
  | .error _ => { c with last_update_success := false }

/-! ## Sensor entity -/

/-- The attribute mapping set by `UserSensor._update_from_user`
(sensor.py lines 143-151): a dictionary with exactly these seven keys. -/
structure StateAttributes where
  user_id : String
  is_owner : Bool
  is_active : Bool
  local_only : Bool
  system_generated : Bool
  group_ids : List String
  has_credentials : Bool
deriving DecidableEq

/-- The observable state of one `UserSensor`: the stored account id
(`self._user_id`), the identifier/naming attributes set in `__init__`, the
displayed value (`_attr_native_value`, `none` before it is first set, as in
the host's `SensorEntity`) and the attribute mapping
(`_attr_extra_state_attributes`, likewise `none` before it is first set). -/
structure UserSensor where
  user_id : String
  attr_unique_id : String
  attr_object_id : String
  attr_name : String
  attr_native_value : Option String
  attr_extra_state_attributes : Option StateAttributes
deriving DecidableEq

/-- The `friendly_name` computed in `UserSensor._update_from_user`
(sensor.py line 140): `user['name'] or f"User {user['id'][:8]}"`. -/
def friendlyName (user : UserRecord) : String :=
  orTruthy user.name ("User " ++ pyTake user.id 8)

/-- `UserSensor._update_from_user` (sensor.py lines 138-151): set the
displayed value to the friendly name and overwrite the attribute mapping;
`local_only` and `has_credentials` are read with `dict.get(key, False)`. -/
def UserSensor.updateFromUser (s : UserSensor) (user : UserRecord) : UserSensor :=
  { s with
    attr_native_value := some (friendlyName user)
    attr_extra_state_attributes := some
      { user_id := user.id
        is_owner := user.is_owner
        is_active := user.is_active
        local_only := user.local_only.getD false
        system_generated := user.system_generated
        group_ids := user.group_ids
        has_credentials := user.has_credentials.getD false } }

/-- The `safe_name` derivation of `UserSensor.__init__` (sensor.py lines
109-110): `username.lower().replace(' ', '_')` applied to
`user['name'] or f"user_{user['id'][:8]}"`. -/
def safeName (user : UserRecord) : String :=
  replaceChar (lowerStr (orTruthy user.name ("user_" ++ pyTake user.id 8))) ' ' '_'

/-- `UserSensor.__init__` (sensor.py lines 103-121): store the account id,
set unique id, object id and name to `f"ha_user_{safe_name}"`, then run
`_update_from_user` on the initial record. -/
def UserSensor.init (user : UserRecord) : UserSensor :=
  UserSensor.updateFromUser
    { user_id := user.id
      attr_unique_id := "ha_user_" ++ safeName user
      attr_object_id := "ha_user_" ++ safeName user
      attr_name := "ha_user_" ++ safeName user
      attr_native_value := none
      attr_extra_state_attributes := none }
    user

/-- `UserSensor._find_user` (sensor.py lines 131-136): linear scan of the
coordinator's record list for the first record whose `id` equals the
sensor's stored `_user_id`. -/
def UserSensor.findUser (s : UserSensor) (data : List UserRecord) :
    Option UserRecord :=
  data.find? fun u => u.id == s.user_id

/-- `UserSensor._handle_coordinator_update` (sensor.py lines 123-129):
look the sensor's user up in the coordinator data; if found, re-run
`_update_from_user`, otherwise leave the state as it is.
(`async_write_ha_state` is a host side effect with no bearing on the
entity's own state.) -/
def UserSensor.handleCoordinatorUpdate (s : UserSensor)
    (data : List UserRecord) : UserSensor :=
  match s.findUser data with
  | some user => s.updateFromUser user
  | none => s

/-! ## Setup hook (`custom_components/ha_users/__init__.py`) -/

/-- Modelled from the spec: `const.py` is not among the sources; the spec
(§6, glossary) says `DOMAIN` is the fixed namespace key under which the
plugin stores its shared state — the integration directory `ha_users`. -/
def DOMAIN : String := "ha_users"

/-- One invocation of the host's `discovery.async_load_platform`
(sensor.py is loaded with platform `sensor`, platform name `DOMAIN` and an
empty discovery payload, `__init__.py` line 33). -/
structure LoadPlatformCall where
  platform : String
  platformName : String
  discovered : List (String × String)
deriving DecidableEq

/-- The observable outcome of `async_setup`: the keys present in
`hass.data` afterwards, the `async_load_platform` invocations made, and the
returned boolean. -/
structure SetupOutcome where
  dataKeys : List String
  loadPlatformCalls : List LoadPlatformCall
  result : Bool
deriving DecidableEq

/-- `async_setup` (`__init__.py` lines 21-35) with `hass.data` abstracted
to its key set and the configuration object to its key set:
`hass.data.setdefault(DOMAIN, {})` adds the domain slot if absent; if
`DOMAIN` is not a key of the config the function returns `True` at once,
otherwise it calls `discovery.async_load_platform(hass, Platform.SENSOR,
DOMAIN, {}, config)` and returns `True`. -/
def async_setup (hassDataKeys : List String) (configKeys : List String) :
    SetupOutcome :=
  let dataKeys := if DOMAIN ∈ hassDataKeys then hassDataKeys
                  else hassDataKeys ++ [DOMAIN]
  if DOMAIN ∈ configKeys then
    { dataKeys := dataKeys
      loadPlatformCalls := [{ platform := "sensor", platformName := DOMAIN,
                              discovered := [] }]
      result := true }
  else
    { dataKeys := dataKeys, loadPlatformCalls := [], result := true }

/-! ## Helper lemmas -/

/-- ASCII lower-casing never yields an upper-case letter. -/
theorem toLower_isUpper_eq_false (c : Char) : (Char.toLower c).isUpper = false := by
  unfold Char.toLower
  by_cases h : 65 ≤ c.toNat ∧ c.toNat ≤ 90
  · simp only [ge_iff_le, h, and_self, if_true]
    obtain ⟨h1, h2⟩ := h
    set n := c.toNat with hn
    interval_cases n <;> decide
  · simp only [ge_iff_le, h, if_false]
    simp only [Char.isUpper, Bool.and_eq_false_iff, decide_eq_false_iff_not, not_le]
    by_contra hcon
    push_neg at hcon
    obtain ⟨hge, hle⟩ := hcon
    exact h ⟨by exact_mod_cast hge, by exact_mod_cast hle⟩

/-- Every character of a `safeName` is neither an upper-case letter nor a
space: the name is lower-cased and spaces are replaced by underscores. -/
theorem safeName_char_sane (user : UserRecord) :
    ∀ c ∈ (safeName user).data, c.isUpper = false ∧ c ≠ ' ' := by
  intro c hc
  simp only [safeName, replaceChar, lowerStr, List.map_map, List.mem_map,
    Function.comp] at hc
  obtain ⟨a, _, ha⟩ := hc
  by_cases hsp : Char.toLower a = ' '
  · rw [hsp] at ha
    simp only [if_pos rfl] at ha
    rw [← ha]
    exact ⟨by decide, by decide⟩
  · rw [if_neg hsp] at ha
    rw [← ha]
    exact ⟨toLower_isUpper_eq_false a, hsp⟩

/-- `safeName` depends only on the record's `name` and `id`. -/
theorem safeName_congr (r r' : UserRecord) (hn : r.name = r'.name)
    (hi : r.id = r'.id) : safeName r = safeName r' := by
  simp only [safeName, hn, hi]

/-- A sensor whose stored id matches no record in the snapshot finds no user. -/
theorem findUser_eq_none (s : UserSensor) (data : List UserRecord)
    (h : ∀ u ∈ data, u.id ≠ s.user_id) : s.findUser data = none := by
  simp only [UserSensor.findUser, List.find?_eq_none, beq_iff_eq]
  exact h

/-! ## Claims -/

/-- C1: for the account `{id: "abc12345", name: "Alice", is_owner: true,
is_active: true, system_generated: false, group_ids: ["g1"]}` with no
credentials and no `local_only` field, constructing a sensor entity (which
runs update-from-record) yields display value `"Alice"`, unique identifier
`"ha_user_alice"`, and exactly the attribute mapping
`{user_id: "abc12345", is_owner: true, is_active: true, local_only: false,
system_generated: false, group_ids: ["g1"], has_credentials: false}`. -/
theorem scenario1_alice :
    (UserSensor.init (mapUser
      { id := "abc12345", name := some "Alice", is_owner := true,
        is_active := true, system_generated := false,
        groups := [{ id := "g1" }], local_only := none,
        credentials := none })).attr_native_value = some "Alice" ∧
    (UserSensor.init (mapUser
      { id := "abc12345", name := some "Alice", is_owner := true,
        is_active := true, system_generated := false,
        groups := [{ id := "g1" }], local_only := none,
        credentials := none })).attr_unique_id = "ha_user_alice" ∧
    (UserSensor.init (mapUser
      { id := "abc12345", name := some "Alice", is_owner := true,
        is_active := true, system_generated := false,
        groups := [{ id := "g1" }], local_only := none,
        credentials := none })).attr_extra_state_attributes =
      some { user_id := "abc12345", is_owner := true, is_active := true,
             local_only := false, system_generated := false,
             group_ids := ["g1"], has_credentials := false } := by
  refine ⟨?_, ?_, ?_⟩ <;> decide

/-- C8: update-from-record is idempotent — applying it twice with the same
record yields the same entity state (displayed value and attribute mapping
included) as applying it once. -/
theorem updateFromUser_idempotent (s : UserSensor) (user : UserRecord) :
    (s.updateFromUser user).updateFromUser user = s.updateFromUser user := rfl

/-- C5: if no record in the snapshot has the entity's stored id,
handle-coordinator-update leaves the entity (displayed value and attribute
mapping included) exactly as it was. -/
theorem handleCoordinatorUpdate_stale (s : UserSensor)
    (data : List UserRecord) (h : ∀ u ∈ data, u.id ≠ s.user_id) :
    s.handleCoordinatorUpdate data = s := by
  simp only [UserSensor.handleCoordinatorUpdate, findUser_eq_none s data h]

/-- C5 witness: a concrete sensor and a snapshot without its id. -/
theorem handleCoordinatorUpdate_stale_witness :
    (UserSensor.handleCoordinatorUpdate
      { user_id := "abc12345", attr_unique_id := "ha_user_alice",
        attr_object_id := "ha_user_alice", attr_name := "ha_user_alice",
        attr_native_value := some "Alice",
        attr_extra_state_attributes := none }
      [{ id := "other", name := none, is_owner := false, is_active := true,
         system_generated := false, group_ids := [],
         local_only := some false, has_credentials := some false }]) =
    { user_id := "abc12345", attr_unique_id := "ha_user_alice",
      attr_object_id := "ha_user_alice", attr_name := "ha_user_alice",
      attr_native_value := some "Alice",
      attr_extra_state_attributes := none } :=
  handleCoordinatorUpdate_stale _ _ (by decide)

/-- C4: a failed refresh is atomic — the cached snapshot after the call
equals the snapshot before the call, the coordinator is marked unavailable,
and an entity that was in sync with the snapshot is unchanged by the
notification that follows the failed refresh. -/
theorem refresh_error_atomic (c : UserCoordinator) (e : String)
    (s : UserSensor) (h : s.handleCoordinatorUpdate (c.data.getD []) = s) :
    (c.refresh (Except.error e)).data = c.data ∧
    (c.refresh (Except.error e)).last_update_success = false ∧
    s.handleCoordinatorUpdate ((c.refresh (Except.error e)).data.getD []) = s := by
  refine ⟨rfl, rfl, ?_⟩
  exact h

/-- C4 witness: a concrete coordinator, error and in-sync entity. -/
theorem refresh_error_atomic_witness :
    (UserCoordinator.refresh { data := some [], last_update_success := true }
      (Except.error "boom")).data = some [] ∧
    (UserSensor.handleCoordinatorUpdate
      { user_id := "abc12345", attr_unique_id := "ha_user_alice",
        attr_object_id := "ha_user_alice", attr_name := "ha_user_alice",
        attr_native_value := some "Alice",
        attr_extra_state_attributes := none }
      ((UserCoordinator.refresh { data := some [], last_update_success := true }
        (Except.error "boom")).data.getD [])) =
    { user_id := "abc12345", attr_unique_id := "ha_user_alice",
      attr_object_id := "ha_user_alice", attr_name := "ha_user_alice",
      attr_native_value := some "Alice",
      attr_extra_state_attributes := none } := by
  have h := refresh_error_atomic { data := some [], last_update_success := true }
    "boom"
    { user_id := "abc12345", attr_unique_id := "ha_user_alice",
      attr_object_id := "ha_user_alice", attr_name := "ha_user_alice",
      attr_native_value := some "Alice",
      attr_extra_state_attributes := none }
    (by decide)
  exact ⟨h.1, h.2.2⟩

/-- C2: for every record whose name is empty or absent, the constructed
entity's displayed value is `"User "` followed by the first 8 characters of
the id, and its unique identifier is `"ha_user_"` followed by
`"user_"` + first 8 characters of the id, lower-cased with spaces replaced
by underscores. -/
theorem init_fallback_name (user : UserRecord)
    (h : user.name = none ∨ user.name = some "") :
    (UserSensor.init user).attr_native_value =
      some ("User " ++ pyTake user.id 8) ∧
    (UserSensor.init user).attr_unique_id =
      "ha_user_" ++ replaceChar (lowerStr ("user_" ++ pyTake user.id 8)) ' ' '_' := by
  have hname : orTruthy user.name ("User " ++ pyTake user.id 8) =
      "User " ++ pyTake user.id 8 := by
    rcases h with h | h <;> simp [orTruthy, h]
  have husr : orTruthy user.name ("user_" ++ pyTake user.id 8) =
      "user_" ++ pyTake user.id 8 := by
    rcases h with h | h <;> simp [orTruthy, h]
  constructor
  · simp only [UserSensor.init, UserSensor.updateFromUser, friendlyName, hname]
  · simp only [UserSensor.init, UserSensor.updateFromUser, safeName, husr]

/-- C2 witness: id `"deadbeefxyz"` and empty name give display value
`"User deadbeef"` and identifier `"ha_user_user_deadbeef"`. -/
theorem init_fallback_name_witness :
    (UserSensor.init
      { id := "deadbeefxyz", name := some "", is_owner := false,
        is_active := true, system_generated := false, group_ids := [],
        local_only := some false,
        has_credentials := some false }).attr_native_value =
      some "User deadbeef" ∧
    (UserSensor.init
      { id := "deadbeefxyz", name := some "", is_owner := false,
        is_active := true, system_generated := false, group_ids := [],
        local_only := some false,
        has_credentials := some false }).attr_unique_id =
      "ha_user_user_deadbeef" := by
  have h := init_fallback_name
    { id := "deadbeefxyz", name := some "", is_owner := false,
      is_active := true, system_generated := false, group_ids := [],
      local_only := some false, has_credentials := some false }
    (Or.inr rfl)
  refine ⟨?_, ?_⟩
  · rw [h.1]; decide
  · rw [h.2]; decide

/-- C3: the mapped record's `local_only` equals the account's `local_only`
when present and `false` when absent; `has_credentials` is `true` iff the
account exposes a credentials list with at least one entry, and `false`
when the credentials attribute is absent. -/
theorem mapUser_defaults (u : HostUser) :
    (mapUser u).local_only = some (u.local_only.getD false) ∧
    ((mapUser u).has_credentials = some true ↔
      ∃ cs, u.credentials = some cs ∧ 0 < cs.length) ∧
    (u.credentials = none → (mapUser u).has_credentials = some false) := by
  refine ⟨?_, ?_, ?_⟩
  · cases hl : u.local_only <;> simp [mapUser, hl]
  · cases hc : u.credentials with
    | none => simp [mapUser, hc]
    | some cs => simp [mapUser, hc]
  · intro hc
    simp [mapUser, hc]

/-- C3 witness: a concrete account with neither attribute present maps to
`local_only = false` and `has_credentials = false`; one with a one-element
credentials list maps to `has_credentials = true`. -/
theorem mapUser_defaults_witness :
    (mapUser { id := "abc12345", name := some "Alice", is_owner := true,
               is_active := true, system_generated := false, groups := [],
               local_only := none, credentials := none }).local_only =
      some false ∧
    (mapUser { id := "abc12345", name := some "Alice", is_owner := true,
               is_active := true, system_generated := false, groups := [],
               local_only := none, credentials := none }).has_credentials =
      some false ∧
    (mapUser { id := "u2", name := none, is_owner := false,
               is_active := true, system_generated := false, groups := [],
               local_only := some true,
               credentials := some [()] }).has_credentials = some true := by
  have h1 := mapUser_defaults
    { id := "abc12345", name := some "Alice", is_owner := true,
      is_active := true, system_generated := false, groups := [],
      local_only := none, credentials := none }
  have h2 := mapUser_defaults
    { id := "u2", name := none, is_owner := false, is_active := true,
      system_generated := false, groups := [], local_only := some true,
      credentials := some [()] }
  refine ⟨?_, h1.2.2 rfl, h2.2.1.mpr ⟨[()], rfl, by decide⟩⟩
  rw [h1.1]
  decide

/-- C6: the entity identifier derivation is a pure deterministic function
of the `(name, id)` pair — two records agreeing on `name` and `id` yield
the same derived unique identifier — and for every record the derived
identifier contains no upper-case letter and no space. -/
theorem unique_id_deterministic_sane (r r' : UserRecord)
    (hn : r.name = r'.name) (hi : r.id = r'.id) :
    (UserSensor.init r).attr_unique_id = (UserSensor.init r').attr_unique_id ∧
    ∀ c ∈ (UserSensor.init r).attr_unique_id.data,
      c.isUpper = false ∧ c ≠ ' ' := by
  constructor
  · simp only [UserSensor.init, UserSensor.updateFromUser,
      safeName_congr r r' hn hi]
  · intro c hc
    simp only [UserSensor.init, UserSensor.updateFromUser,
      String.data_append, List.mem_append] at hc
    rcases hc with hc | hc
    · have hfix : ∀ x ∈ ['h', 'a', '_', 'u', 's', 'e', 'r', '_'],
          x.isUpper = false ∧ x ≠ ' ' := by decide
      exact hfix c hc
    · exact safeName_char_sane r c hc

/-- C6 witness: two records sharing name `"Mr X"` and id `"ID 1"` but
differing elsewhere give the same identifier, `"ha_user_mr_x"`, which is
lower-case and space-free. -/
theorem unique_id_deterministic_sane_witness :
    (UserSensor.init
      { id := "ID 1", name := some "Mr X", is_owner := true,
        is_active := true, system_generated := false, group_ids := ["g1"],
        local_only := some false,
        has_credentials := some false }).attr_unique_id =
    (UserSensor.init
      { id := "ID 1", name := some "Mr X", is_owner := false,
        is_active := false, system_generated := true, group_ids := [],
        local_only := some true,
        has_credentials := some true }).attr_unique_id ∧
    (UserSensor.init
      { id := "ID 1", name := some "Mr X", is_owner := true,
        is_active := true, system_generated := false, group_ids := ["g1"],
        local_only := some false,
        has_credentials := some false }).attr_unique_id = "ha_user_mr_x" := by
  have h := unique_id_deterministic_sane
    { id := "ID 1", name := some "Mr X", is_owner := true,
      is_active := true, system_generated := false, group_ids := ["g1"],
      local_only := some false, has_credentials := some false }
    { id := "ID 1", name := some "Mr X", is_owner := false,
      is_active := false, system_generated := true, group_ids := [],
      local_only := some true, has_credentials := some true }
    rfl rfl
  exact ⟨h.1, by decide⟩

/-- C7: for every account in a fetched list whose host id is non-empty (a
host API invariant), the mapped record has a non-empty id, and when its
name is empty or absent the displayed fallback name is the deterministic
string `"User "` followed by the first 8 characters of that id. -/
theorem asyncUpdateData_id_fallback (users : List HostUser)
    (hid : ∀ u ∈ users, u.id ≠ "") (rec : UserRecord)
    (hrec : rec ∈ asyncUpdateData users) :
    rec.id ≠ "" ∧
    ((rec.name = none ∨ rec.name = some "") →
      friendlyName rec = "User " ++ pyTake rec.id 8) := by
  simp only [asyncUpdateData, List.mem_map] at hrec
  obtain ⟨u, hu, hmap⟩ := hrec
  constructor
  · have : rec.id = u.id := by rw [← hmap]; rfl
    rw [this]
    exact hid u hu
  · intro hname
    rcases hname with h | h <;> simp [friendlyName, orTruthy, h]

/-- C7 witness: a concrete fetched list with a `None`-named account. -/
theorem asyncUpdateData_id_fallback_witness :
    (mapUser { id := "deadbeefxyz", name := none, is_owner := false,
               is_active := true, system_generated := false, groups := [],
               local_only := none, credentials := none }).id ≠ "" ∧
    friendlyName (mapUser
      { id := "deadbeefxyz", name := none, is_owner := false,
        is_active := true, system_generated := false, groups := [],
        local_only := none, credentials := none }) = "User deadbeef" := by
  have h := asyncUpdateData_id_fallback
    [{ id := "deadbeefxyz", name := none, is_owner := false,
       is_active := true, system_generated := false, groups := [],
       local_only := none, credentials := none }]
    (by decide)
    (mapUser { id := "deadbeefxyz", name := none, is_owner := false,
               is_active := true, system_generated := false, groups := [],
               local_only := none, credentials := none })
    (by simp [asyncUpdateData])
  refine ⟨h.1, ?_⟩
  rw [h.2 (Or.inl rfl)]
  decide

/-- C9: the setup entry point keeps or adds the domain slot in
host-managed shared state and returns success, and it performs exactly the
single load-platform call — the `sensor` platform, the domain name, an
empty forwarded payload — if and only if the domain key is present in the
configuration object. -/
theorem async_setup_contract (hassDataKeys configKeys : List String) :
    DOMAIN ∈ (async_setup hassDataKeys configKeys).dataKeys ∧
    (async_setup hassDataKeys configKeys).result = true ∧
    ((async_setup hassDataKeys configKeys).loadPlatformCalls =
        [{ platform := "sensor", platformName := DOMAIN, discovered := [] }] ↔
      DOMAIN ∈ configKeys) := by
  unfold async_setup
  by_cases hc : DOMAIN ∈ configKeys <;> by_cases hd : DOMAIN ∈ hassDataKeys <;>
    simp [hc, hd]

/-- C9 witness: fresh shared state and a configuration containing the
domain block. -/
theorem async_setup_contract_witness :
    DOMAIN ∈ (async_setup [] [DOMAIN]).dataKeys ∧
    (async_setup [] [DOMAIN]).loadPlatformCalls =
      [{ platform := "sensor", platformName := DOMAIN, discovered := [] }] := by
  have h := async_setup_contract [] [DOMAIN]
  exact ⟨h.1, h.2.2.mpr (by decide)⟩

/-- The binding invariant of one sensor: its stored `_user_id` and, when
the attribute mapping is set, the mapping's `user_id` entry both equal the
account id the sensor was constructed for. -/
def BoundTo (s : UserSensor) (accountId : String) : Prop :=
  s.user_id = accountId ∧
  ∀ a, s.attr_extra_state_attributes = some a → a.user_id = accountId

/-- One coordinator update preserves the binding invariant: the lookup can
only return a record whose id equals the stored id. -/
theorem handleCoordinatorUpdate_boundTo (s : UserSensor) (accountId : String)
    (data : List UserRecord) (h : BoundTo s accountId) :
    BoundTo (s.handleCoordinatorUpdate data) accountId := by
  unfold UserSensor.handleCoordinatorUpdate
  cases hf : s.findUser data with
  | none => exact h
  | some u =>
    have hu : u.id = s.user_id := by
      unfold UserSensor.findUser at hf
      have hp := List.find?_some hf
      exact eq_of_beq hp
    refine ⟨h.1, ?_⟩
    intro a ha
    simp only [UserSensor.updateFromUser, Option.some.injEq] at ha
    rw [← ha]
    rw [hu, h.1]

/-- A whole sequence of coordinator updates preserves the binding invariant. -/
theorem foldl_boundTo (snaps : List (List UserRecord)) (s : UserSensor)
    (accountId : String) (h : BoundTo s accountId) :
    BoundTo (snaps.foldl UserSensor.handleCoordinatorUpdate s) accountId := by
  induction snaps generalizing s with
  | nil => exact h
  | cons d ds ih =>
    exact ih (s.handleCoordinatorUpdate d)
      (handleCoordinatorUpdate_boundTo s accountId d h)

/-- C10: for every sequence of coordinator updates against arbitrary
snapshots, whenever the entity's attribute mapping is set its `user_id`
entry equals the id the entity was constructed with — updates can never
rebind an entity to a different account. -/
theorem sensor_never_rebinds (r : UserRecord)
    (snaps : List (List UserRecord)) (a : StateAttributes)
    (ha : (snaps.foldl UserSensor.handleCoordinatorUpdate
      (UserSensor.init r)).attr_extra_state_attributes = some a) :
    a.user_id = r.id := by
  have hinit : BoundTo (UserSensor.init r) r.id := by
    refine ⟨rfl, ?_⟩
    intro a' ha'
    simp only [UserSensor.init, UserSensor.updateFromUser,
      Option.some.injEq] at ha'
    rw [← ha']
  exact (foldl_boundTo snaps (UserSensor.init r) r.id hinit).2 a ha

/-- C10 witness: a sensor built for id `"abc12345"`, updated from a
snapshot renaming the account and then from an empty snapshot, still
carries `user_id = "abc12345"` in its attribute mapping. -/
theorem sensor_never_rebinds_witness :
    StateAttributes.user_id
      { user_id := "abc12345", is_owner := false, is_active := true,
        local_only := true, system_generated := false, group_ids := [],
        has_credentials := true } = "abc12345" :=
  sensor_never_rebinds
    { id := "abc12345", name := some "Alice", is_owner := true,
      is_active := true, system_generated := false, group_ids := ["g1"],
      local_only := some false, has_credentials := some false }
    [[{ id := "abc12345", name := some "Bob", is_owner := false,
        is_active := true, system_generated := false, group_ids := [],
        local_only := some true, has_credentials := some true }], []]
    { user_id := "abc12345", is_owner := false, is_active := true,
      local_only := true, system_generated := false, group_ids := [],
      has_credentials := true }
    (by decide)

end HAUsers
